import Mathlib

/-!
# Verification of the family-schedulekit custody resolution engine

Shallow embedding of `src/family_schedulekit/models.py` and
`src/family_schedulekit/resolver.py`, together with proofs of the
specification's claims about the custody resolution engine.

Calendar arithmetic (`datetime.date`: ordinals, weekday, ISO week numbers,
adding and subtracting one day, `isoformat`) is the Python standard library, used by
the resolver as an external collaborator; it is embedded here with the
proleptic-Gregorian semantics the library documents.
-/

/-! ## Calendar primitive (embedding of `datetime.date`) -/

/-- Gregorian leap-year test (`calendar.isleap`). -/
def isLeapYear (y : Nat) : Bool :=
  y % 4 == 0 && (y % 100 != 0 || y % 400 == 0)

/-- Length of month `m` in a year whose leap status is `leap`.
Months outside 1..12 get the default length 31 (never reached on valid dates). -/
def monthLength (leap : Bool) (m : Nat) : Nat :=
  if m == 2 then (if leap then 29 else 28)
  else if m == 4 || m == 6 || m == 9 || m == 11 then 30
  else 31

/-- Number of days in the year strictly before month `m` (for `m ≥ 1`). -/
def daysBeforeMonth (leap : Bool) : Nat → Nat
  | 0 => 0
  | 1 => 0
  | m + 1 => daysBeforeMonth leap m + monthLength leap m

/-- A Python `datetime.date`: a year-month-day triple. -/
structure PyDate where
  year : Nat
  month : Nat
  day : Nat
deriving DecidableEq, Repr

/-- Days in month `m` of year `y` (`calendar.monthrange`). -/
def daysInMonth (y m : Nat) : Nat := monthLength (isLeapYear y) m

/-- The dates `datetime.date` accepts: year ≥ 1, real month, real day. -/
def PyDate.valid (d : PyDate) : Bool :=
  1 ≤ d.year && 1 ≤ d.month && d.month ≤ 12 && 1 ≤ d.day && d.day ≤ daysInMonth d.year d.month

/-- Day-of-year, 1-based (`date.timetuple().tm_yday`). -/
def PyDate.dayOfYear (d : PyDate) : Nat :=
  daysBeforeMonth (isLeapYear d.year) d.month + d.day

/-- Number of leap years among years 1..y-1. -/
def leapsBefore (y : Nat) : Nat :=
  (y - 1) / 4 - (y - 1) / 100 + (y - 1) / 400

/-- Proleptic-Gregorian ordinal (`date.toordinal`): 0001-01-01 ↦ 1. -/
def PyDate.toOrdinal (d : PyDate) : Nat :=
  365 * (d.year - 1) + leapsBefore d.year + d.dayOfYear

/-- `date.weekday()`: Monday = 0, ..., Sunday = 6. -/
def PyDate.pyWeekday (d : PyDate) : Nat :=
  (d.toOrdinal + 6) % 7

/-- `d + timedelta(days=1)`. -/
def PyDate.succ (d : PyDate) : PyDate :=
  if d.day < daysInMonth d.year d.month then ⟨d.year, d.month, d.day + 1⟩
  else if d.month < 12 then ⟨d.year, d.month + 1, 1⟩
  else ⟨d.year + 1, 1, 1⟩

/-- `d - timedelta(days=1)`. -/
def PyDate.pred (d : PyDate) : PyDate :=
  if 1 < d.day then ⟨d.year, d.month, d.day - 1⟩
  else if 1 < d.month then ⟨d.year, d.month - 1, daysInMonth d.year (d.month - 1)⟩
  else ⟨d.year - 1, 12, 31⟩

/-- Zero-pad a numeral to two digits (`"%02d"`). -/
def pad2 (n : Nat) : String :=
  if n < 10 then "0" ++ toString n else toString n

/-- Zero-pad a numeral to four digits (`"%04d"`). -/
def pad4 (n : Nat) : String :=
  if n < 10 then "000" ++ toString n
  else if n < 100 then "00" ++ toString n
  else if n < 1000 then "0" ++ toString n
  else toString n

/-- `date.isoformat()`: `YYYY-MM-DD`. -/
def PyDate.isoformat (d : PyDate) : String :=
  pad4 d.year ++ "-" ++ pad2 d.month ++ "-" ++ pad2 d.day

/-- Ordinal of the Monday starting ISO week 1 of year `y`
(CPython `_isoweek1monday`). -/
def week1monday (y : Nat) : Nat :=
  let jan1 := PyDate.toOrdinal ⟨y, 1, 1⟩
  let wd := (jan1 + 6) % 7
  jan1 - wd + (if wd > 3 then 7 else 0)

/-- `iso_week` from `resolver.py`: `dt.isocalendar().week`. -/
def iso_week (d : PyDate) : Nat :=
  let t := d.toOrdinal
  let w1 := week1monday d.year
  if t < w1 then
    (t - week1monday (d.year - 1)) / 7 + 1
  else
    let wk := (t - w1) / 7
    if wk ≥ 52 && decide (t ≥ week1monday (d.year + 1)) then 1
    else wk + 1

/-! ## Rule model (embedding of `models.py`) -/

/-- `Guardian = Literal["mom", "dad"]`. -/
inductive Guardian where
  | mom
  | dad
deriving DecidableEq, Repr

/-- The underlying literal string of a `Guardian` value. -/
def Guardian.toString : Guardian → String
  | .mom => "mom"
  | .dad => "dad"

/-- `Weekday(StrEnum)`, declaration order Monday..Sunday. -/
inductive Weekday where
  | monday
  | tuesday
  | wednesday
  | thursday
  | friday
  | saturday
  | sunday
deriving DecidableEq, Repr

/-- `Weekday.from_python_weekday`: `tuple(cls)[i]` for `i = date.weekday()`. -/
def Weekday.from_python_weekday : Nat → Weekday
  | 0 => .monday
  | 1 => .tuesday
  | 2 => .wednesday
  | 3 => .thursday
  | 4 => .friday
  | 5 => .saturday
  | _ => .sunday

/-- `WeekdayRules`: fixed guardian for each of Monday..Thursday. -/
structure WeekdayRules where
  monday : Guardian
  tuesday : Guardian
  wednesday : Guardian
  thursday : Guardian
deriving DecidableEq, Repr

/-- `CalendarWeekModuloRule`: applies when `calendar_week % modulo == remainder`.
`remainder` is a `Nat`, reflecting the model's `ge=0` field bound. -/
structure CalendarWeekModuloRule where
  modulo : Nat
  remainder : Nat
  guardian : Guardian
deriving DecidableEq, Repr

/-- `WeekdayRule`: ordered modulo rules with an `otherwise` fallback. -/
structure WeekdayRule where
  modulo_rules : List CalendarWeekModuloRule
  otherwise : Guardian
deriving DecidableEq, Repr

/-- The `Guardian | WeekdayRule` union used by the even-week weekend slots. -/
inductive GuardianOrRule where
  | direct (g : Guardian)
  | rule (r : WeekdayRule)
deriving DecidableEq, Repr

/-- `WeekendOdd`: plain guardians for the odd-week weekend. -/
structure WeekendOdd where
  friday : Guardian
  saturday : Guardian
  sunday : Guardian
deriving DecidableEq, Repr

/-- `WeekendEven`: `Guardian | WeekdayRule` for each even-week weekend day. -/
structure WeekendEven where
  friday : GuardianOrRule
  saturday : GuardianOrRule
  sunday : GuardianOrRule
deriving DecidableEq, Repr

/-- `Weekends`. -/
structure Weekends where
  odd_weeks : WeekendOdd
  even_weeks : WeekendEven
deriving DecidableEq, Repr

/-- `Rules`. -/
structure Rules where
  weekdays : WeekdayRules
  weekends : Weekends
deriving DecidableEq, Repr

/-- `Parties`: display names of the guardians and children. -/
structure Parties where
  mom : String
  dad : String
  children : List String
deriving DecidableEq, Repr

/-- `HandoffTime`: structured handoff time. `by_` embeds the model's `by` flag. -/
structure HandoffTime where
  hour : Nat
  minute : Nat
  use_24h : Bool
  by_ : Bool
deriving DecidableEq, Repr

/-- `HandoffTime.format`: human-readable time string. -/
def HandoffTime.format (t : HandoffTime) : String :=
  let time_str :=
    if t.use_24h then
      pad2 t.hour ++ ":" ++ pad2 t.minute
    else
      let hour_12 := if t.hour % 12 == 0 then 12 else t.hour % 12
      let am_pm := if t.hour < 12 then "AM" else "PM"
      if t.minute == 0 then toString hour_12 ++ am_pm
      else toString hour_12 ++ ":" ++ pad2 t.minute ++ am_pm
  if t.by_ then "by " ++ time_str else time_str

/-- `SpecialHandoff`: conditional handoff rule for a weekday. -/
structure SpecialHandoff where
  from_guardian : Guardian
  to_guardian : Guardian
  time : HandoffTime
  description : Option String
deriving DecidableEq, Repr

/-- `WeekdayHandoffs`: detailed weekday handoff object. -/
structure WeekdayHandoffs where
  location : String
  time : Option String
deriving DecidableEq, Repr

/-- The `WeekdayHandoffs | Literal["school"]` union of `Handoff.weekdays`. -/
inductive WeekdaysHandoffField where
  | school
  | detailed (w : WeekdayHandoffs)
deriving DecidableEq, Repr

/-- `Handoff`: weekday handoff policy plus per-weekday special handoffs. -/
structure Handoff where
  weekdays : WeekdaysHandoffField
  special_handoffs : List (Weekday × SpecialHandoff)
deriving DecidableEq, Repr

/-- Modelled from the spec: the `SwapDate` model (`(guardian, handoff?, note?,
color?)` per-date override) is referenced by `resolver.py`, the tests and
`exporter.py` but its declaration is missing from the shipped `models.py`. -/
structure SwapDate where
  guardian : Guardian
  handoff : Option String
  note : Option String
  color : Option String
deriving DecidableEq, Repr

/-- `ScheduleConfigModel`: the root configuration aggregate.  The `swaps`
field is modelled from the spec (date → `SwapDate` map, keyed `YYYY-MM-DD`);
it is read by `resolver.py` but missing from the shipped `models.py`. -/
structure ScheduleConfigModel where
  version : String
  parties : Parties
  handoff : Handoff
  rules : Rules
  holidays : List (String × Guardian)
  swaps : List (String × SwapDate)
deriving DecidableEq, Repr

/-! ## Configuration validation (embedding of the pydantic validators) -/

/-- Split a character list at `-` separators (the shape `%Y-%m-%d` imposes). -/
def splitDash : List Char → List Char → List (List Char)
  | [], acc => [acc.reverse]
  | c :: rest, acc =>
    if c = '-' then acc.reverse :: splitDash rest []
    else splitDash rest (c :: acc)

/-- Numeric value of a digit string. -/
def digitsVal (cs : List Char) : Nat :=
  cs.foldl (fun a c => a * 10 + (c.toNat - 48)) 0

/-- `datetime.strptime(k, "%Y-%m-%d")` followed by the `date` constructor:
a four-digit year, one- or two-digit month and day, nothing else, denoting a
real calendar date with year ≥ 1.  Returns the parsed date on success. -/
def parseIsoDate (s : String) : Option PyDate :=
  match splitDash s.data [] with
  | [ys, ms, ds] =>
    if ys.length == 4 && ys.all Char.isDigit
        && (ms.length == 1 || ms.length == 2) && ms.all Char.isDigit
        && (ds.length == 1 || ds.length == 2) && ds.all Char.isDigit then
      let y := digitsVal ys
      let m := digitsVal ms
      let d := digitsVal ds
      if 1 ≤ y && 1 ≤ m && m ≤ 12 && 1 ≤ d && d ≤ daysInMonth y m then
        some ⟨y, m, d⟩
      else none
    else none
  | _ => none

/-- The `CalendarWeekModuloRule` field/validator checks: `modulo ≥ 2` and
`remainder < modulo` (`remainder ≥ 0` is carried by the `Nat` type). -/
def CalendarWeekModuloRule.ok (r : CalendarWeekModuloRule) : Bool :=
  2 ≤ r.modulo && r.remainder < r.modulo

/-- Modulo rules carried by one `Guardian | WeekdayRule` slot. -/
def GuardianOrRule.moduloRules : GuardianOrRule → List CalendarWeekModuloRule
  | .direct _ => []
  | .rule r => r.modulo_rules

/-- All modulo rules appearing in a configuration (the even-week weekend
slots are the only place the schema admits them). -/
def configModuloRules (cfg : ScheduleConfigModel) : List CalendarWeekModuloRule :=
  cfg.rules.weekends.even_weeks.friday.moduloRules
    ++ cfg.rules.weekends.even_weeks.saturday.moduloRules
    ++ cfg.rules.weekends.even_weeks.sunday.moduloRules

/-- Construction-time validation of a configuration: every modulo rule passes
its field/validator checks, and every holiday and swap key parses as a valid
calendar date (the holiday check is `ScheduleConfigModel._validate_holidays`;
the swap-key check is modelled from the spec, the `swaps` field being absent
from the shipped `models.py`). -/
def validateScheduleConfig (cfg : ScheduleConfigModel) : Bool :=
  (configModuloRules cfg).all CalendarWeekModuloRule.ok
    && cfg.holidays.all (fun kv => (parseIsoDate kv.1).isSome)
    && cfg.swaps.all (fun kv => (parseIsoDate kv.1).isSome)

/-! ## The resolver (embedding of `resolver.py`) -/

/-- `_get_weekday_handoff`: the weekday handoff location/description. -/
def _get_weekday_handoff (cfg : ScheduleConfigModel) : String :=
  match cfg.handoff.weekdays with
  | .school => "school"
  | .detailed w => w.location

/-- `resolve_weekday_rule`: first matching modulo rule wins, else `otherwise`;
a bare guardian is returned unchanged. -/
def resolve_weekday_rule (rule : GuardianOrRule) (cw : Nat) : Guardian :=
  match rule with
  | .direct g => g
  | .rule r =>
    match r.modulo_rules.find? (fun mr => cw % mr.modulo == mr.remainder) with
    | some mr => mr.guardian
    | none => r.otherwise

/-- `Weekday.from_python_weekday(dt.weekday())` as computed by the resolver. -/
def weekdayOf (dt : PyDate) : Weekday :=
  Weekday.from_python_weekday dt.pyWeekday

/-- `DayResolution`: the dictionary returned by `resolve_for_date`. -/
structure DayResolution where
  date : String
  calendar_week : Nat
  guardian : Guardian
  handoff : Option String
  is_swap : Bool
  swap_note : Option String
deriving DecidableEq, Repr

/-- `resolve_for_date`, instrumented with explicit recursion fuel: each
recursive neighbor call consumes one unit, and `none` means the call could
not complete within the given recursion depth.  Apart from the fuel
accounting this is a line-by-line embedding of `resolver.py`: swap check,
legacy holiday check, weekday `match` (the Friday arm looks one day back —
unconditionally, whatever `check_handoff` is), then the special-handoff
step guarded by `check_handoff`, which looks one day forward. -/
def resolveFuel (fuel : Nat) (dt : PyDate) (cfg : ScheduleConfigModel)
    (check_handoff : Bool) : Option DayResolution :=
  let iso_date := dt.isoformat
  let cw := iso_week dt
  let day := weekdayOf dt
  match List.lookup iso_date cfg.swaps with
  | some swap =>
    some ⟨iso_date, cw, swap.guardian, swap.handoff, true, swap.note⟩
  | none =>
  match List.lookup iso_date cfg.holidays with
  | some g =>
    some ⟨iso_date, cw, g, none, false, none⟩
  | none =>
    let base : Option (Guardian × Option String) :=
      match day with
      | .monday => some (cfg.rules.weekdays.monday, some (_get_weekday_handoff cfg))
      | .tuesday => some (cfg.rules.weekdays.tuesday, some (_get_weekday_handoff cfg))
      | .wednesday => some (cfg.rules.weekdays.wednesday, some (_get_weekday_handoff cfg))
      | .thursday => some (cfg.rules.weekdays.thursday, some (_get_weekday_handoff cfg))
      | .friday =>
        let guardian :=
          if cw % 2 == 1 then cfg.rules.weekends.odd_weeks.friday
          else resolve_weekday_rule cfg.rules.weekends.even_weeks.friday cw
        match fuel with
        | 0 => none
        | f + 1 =>
          match resolveFuel f dt.pred cfg false with
          | none => none
          | some yesterday_result =>
            some (guardian,
              if yesterday_result.guardian != guardian then some "after_school" else none)
      | .saturday =>
        some ((if cw % 2 == 1 then cfg.rules.weekends.odd_weeks.saturday
               else resolve_weekday_rule cfg.rules.weekends.even_weeks.saturday cw), none)
      | .sunday =>
        some ((if cw % 2 == 1 then cfg.rules.weekends.odd_weeks.sunday
               else resolve_weekday_rule cfg.rules.weekends.even_weeks.sunday cw), none)
    match base with
    | none => none
    | some (guardian, handoff) =>
      if check_handoff then
        match List.lookup day cfg.handoff.special_handoffs with
        | none => some ⟨iso_date, cw, guardian, handoff, false, none⟩
        | some special =>
          if guardian == special.from_guardian
              && special.from_guardian != special.to_guardian then
            match fuel with
            | 0 => none
            | f + 1 =>
              match resolveFuel f dt.succ cfg false with
              | none => none
              | some next_result =>
                let handoff :=
                  if next_result.guardian == special.to_guardian then
                    -- `if special.description:` — Python truthiness: an empty
                    -- string is falsy, so it auto-generates like `None` does.
                    some (match special.description with
                      | some descr =>
                        if descr = "" then
                          special.from_guardian.toString ++ "_to_"
                            ++ special.to_guardian.toString ++ "_" ++ special.time.format
                        else descr
                      | none =>
                        special.from_guardian.toString ++ "_to_"
                          ++ special.to_guardian.toString ++ "_" ++ special.time.format)
                  else handoff
                some ⟨iso_date, cw, guardian, handoff, false, none⟩
          else some ⟨iso_date, cw, guardian, handoff, false, none⟩
      else some ⟨iso_date, cw, guardian, handoff, false, none⟩

/-- The placeholder result used to totalize `resolve_for_date`; never reached
on valid dates (see the fuel-sufficiency theorems). -/
def emptyResolution : DayResolution :=
  ⟨"", 0, .mom, none, false, none⟩

/-- `resolve_for_date dt cfg check_handoff`: the resolver's result.  Fuel 2
provably suffices for every valid date, so this totalization agrees with the
recursive program everywhere the Python code runs. -/
def resolve_for_date (dt : PyDate) (cfg : ScheduleConfigModel)
    (check_handoff : Bool) : DayResolution :=
  (resolveFuel 2 dt cfg check_handoff).getD emptyResolution

/-! ## Two-phase reference resolver

A non-recursive restatement of `resolve_for_date` (the spec's §9 "two-phase"
design note): first the per-day guardian, then handoff annotations derived by
comparing adjacent days.  Proved below to agree with the recursive program on
every valid date, it is the vehicle for all further reasoning. -/

/-- The guardian computed by the weekday `match` of `resolve_for_date`. -/
def baseGuardian (dt : PyDate) (cfg : ScheduleConfigModel) : Guardian :=
  let cw := iso_week dt
  match weekdayOf dt with
  | .monday => cfg.rules.weekdays.monday
  | .tuesday => cfg.rules.weekdays.tuesday
  | .wednesday => cfg.rules.weekdays.wednesday
  | .thursday => cfg.rules.weekdays.thursday
  | .friday =>
    if cw % 2 == 1 then cfg.rules.weekends.odd_weeks.friday
    else resolve_weekday_rule cfg.rules.weekends.even_weeks.friday cw
  | .saturday =>
    if cw % 2 == 1 then cfg.rules.weekends.odd_weeks.saturday
    else resolve_weekday_rule cfg.rules.weekends.even_weeks.saturday cw
  | .sunday =>
    if cw % 2 == 1 then cfg.rules.weekends.odd_weeks.sunday
    else resolve_weekday_rule cfg.rules.weekends.even_weeks.sunday cw

/-- The guardian `resolve_for_date` reports for a date: swap override, then
holiday override, then the weekday rules. -/
def computedGuardian (dt : PyDate) (cfg : ScheduleConfigModel) : Guardian :=
  match List.lookup dt.isoformat cfg.swaps with
  | some swap => swap.guardian
  | none =>
    match List.lookup dt.isoformat cfg.holidays with
    | some g => g
    | none => baseGuardian dt cfg

/-- The handoff annotation before the special-handoff step: Monday–Thursday
always carry the weekday handoff location, Friday carries `"after_school"`
exactly on a custody change from Thursday, the weekend carries none. -/
def baseHandoff (dt : PyDate) (cfg : ScheduleConfigModel) : Option String :=
  match weekdayOf dt with
  | .monday | .tuesday | .wednesday | .thursday => some (_get_weekday_handoff cfg)
  | .friday =>
    if computedGuardian dt.pred cfg != baseGuardian dt cfg then some "after_school"
    else none
  | .saturday | .sunday => none

/-- Reference result of `resolve_for_date` with `_check_handoff=False`. -/
def referenceFalse (dt : PyDate) (cfg : ScheduleConfigModel) : DayResolution :=
  match List.lookup dt.isoformat cfg.swaps with
  | some swap => ⟨dt.isoformat, iso_week dt, swap.guardian, swap.handoff, true, swap.note⟩
  | none =>
    match List.lookup dt.isoformat cfg.holidays with
    | some g => ⟨dt.isoformat, iso_week dt, g, none, false, none⟩
    | none =>
      ⟨dt.isoformat, iso_week dt, baseGuardian dt cfg, baseHandoff dt cfg, false, none⟩

/-- The string a manifest special handoff writes: the configured description
verbatim when it is truthy (present and non-empty — Python's
`if special.description:`), else the auto-generated `from_to_time` string. -/
def specialHandoffString (special : SpecialHandoff) : String :=
  match special.description with
  | some descr =>
    if descr = "" then
      special.from_guardian.toString ++ "_to_" ++ special.to_guardian.toString
        ++ "_" ++ special.time.format
    else descr
  | none =>
    special.from_guardian.toString ++ "_to_" ++ special.to_guardian.toString
      ++ "_" ++ special.time.format

/-- Reference result of `resolve_for_date` with `_check_handoff=True`. -/
def referenceTrue (dt : PyDate) (cfg : ScheduleConfigModel) : DayResolution :=
  match List.lookup dt.isoformat cfg.swaps with
  | some swap => ⟨dt.isoformat, iso_week dt, swap.guardian, swap.handoff, true, swap.note⟩
  | none =>
    match List.lookup dt.isoformat cfg.holidays with
    | some g => ⟨dt.isoformat, iso_week dt, g, none, false, none⟩
    | none =>
      let base : DayResolution :=
        ⟨dt.isoformat, iso_week dt, baseGuardian dt cfg, baseHandoff dt cfg, false, none⟩
      match List.lookup (weekdayOf dt) cfg.handoff.special_handoffs with
      | none => base
      | some special =>
        if baseGuardian dt cfg == special.from_guardian
            && special.from_guardian != special.to_guardian then
          if computedGuardian dt.succ cfg == special.to_guardian then
            { base with handoff := some (specialHandoffString special) }
          else base
        else base

/-- A configuration with no modulo rules anywhere. -/
def noModuloRules (cfg : ScheduleConfigModel) : Bool :=
  (configModuloRules cfg).isEmpty

/-- The guardian a `Guardian | WeekdayRule` slot yields when no modulo rule
matches: the bare guardian, or the rule's `otherwise`. -/
def GuardianOrRule.directValue : GuardianOrRule → Guardian
  | .direct g => g
  | .rule r => r.otherwise

/-! ## Concrete configurations used by the concrete theorems

`Guardian.mom` plays the configuration's `guardian_1` and `Guardian.dad` its
`guardian_2`; the display names record the correspondence. -/

/-- The spec's round-trip configuration: guardian_1 (mom slot) holds Mon–Thu
and all odd-week weekends; guardian_2 (dad slot) holds even-week Fri–Sat;
even-week Sunday goes to guardian_2 when `calendar_week % 4 == 0`, else
guardian_1, with a Sunday special handoff back to guardian_1 by 1pm. -/
def roundTripConfig : ScheduleConfigModel :=
  { version := "1.0.0"
    parties := ⟨"guardian_1", "guardian_2", ["child_1"]⟩
    handoff :=
      { weekdays := .school
        special_handoffs :=
          [(Weekday.sunday,
            { from_guardian := .dad, to_guardian := .mom,
              time := ⟨13, 0, false, true⟩,
              description := some "guardian_2_to_guardian_1_by_1pm" })] }
    rules :=
      { weekdays := ⟨.mom, .mom, .mom, .mom⟩
        weekends :=
          { odd_weeks := ⟨.mom, .mom, .mom⟩
            even_weeks :=
              { friday := .direct .dad
                saturday := .direct .dad
                sunday := .rule ⟨[⟨4, 0, .dad⟩], .mom⟩ } } }
    holidays := []
    swaps := [] }

/-- A modulo-rule-free probe configuration: Monday–Thursday belong to mom
while every entry of both weekend parity blocks is dad. -/
def parityProbeConfig : ScheduleConfigModel :=
  { version := "1.0.0"
    parties := ⟨"guardian_1", "guardian_2", ["child_1"]⟩
    handoff := { weekdays := .school, special_handoffs := [] }
    rules :=
      { weekdays := ⟨.mom, .mom, .mom, .mom⟩
        weekends :=
          { odd_weeks := ⟨.dad, .dad, .dad⟩
            even_weeks := ⟨.direct .dad, .direct .dad, .direct .dad⟩ } }
    holidays := []
    swaps := [] }

/-- `roundTripConfig` with a Thursday special handoff (mom to dad), so that
resolving a Thursday chains into Friday's unguarded backward lookup. -/
def thursdaySpecialConfig : ScheduleConfigModel :=
  { roundTripConfig with
    handoff :=
      { weekdays := .school
        special_handoffs :=
          [(Weekday.thursday,
            { from_guardian := .mom, to_guardian := .dad,
              time := ⟨17, 0, false, false⟩,
              description := none })] } }

/-- `roundTripConfig` with one swap entry on Monday 2025-02-10. -/
def swapProbeConfig : ScheduleConfigModel :=
  { roundTripConfig with
    swaps := [("2025-02-10", ⟨.dad, some "at school by 6pm", some "Doctor appointment", none⟩)] }

theorem referenceFalse_guardian (dt : PyDate) (cfg : ScheduleConfigModel) :
    (referenceFalse dt cfg).guardian = computedGuardian dt cfg := by
  unfold referenceFalse computedGuardian
  cases List.lookup dt.isoformat cfg.swaps with
  | some swap => rfl
  | none => cases List.lookup dt.isoformat cfg.holidays <;> rfl

/-! ## Calendar arithmetic lemmas -/

theorem daysBeforeMonth_step (leap : Bool) (m : Nat) (h : 1 ≤ m) :
    daysBeforeMonth leap (m + 1) = daysBeforeMonth leap m + monthLength leap m := by
  match m, h with
  | n + 1, _ => rfl

theorem monthLength_pos (leap : Bool) (m : Nat) : 1 ≤ monthLength leap m := by
  unfold monthLength
  split
  · split <;> omega
  · split <;> omega

theorem leapsBefore_step (y : Nat) (hy : 1 ≤ y) :
    leapsBefore (y + 1) = leapsBefore y + (if isLeapYear y then 1 else 0) := by
  by_cases h4 : y % 4 = 0 <;> by_cases h100 : y % 100 = 0 <;> by_cases h400 : y % 400 = 0 <;>
    simp [leapsBefore, isLeapYear, h4, h100, h400] <;> omega

theorem daysBeforeMonth_twelve (leap : Bool) :
    daysBeforeMonth leap 12 = if leap then 335 else 334 := by
  cases leap <;> rfl

theorem daysBeforeMonth_year (leap : Bool) :
    daysBeforeMonth leap 12 + monthLength leap 12 = if leap then 366 else 365 := by
  cases leap <;> rfl

theorem toOrdinal_pos (d : PyDate) (h : d.valid = true) : 1 ≤ d.toOrdinal := by
  simp only [PyDate.valid, Bool.and_eq_true, decide_eq_true_eq] at h
  unfold PyDate.toOrdinal PyDate.dayOfYear
  omega

theorem toOrdinal_succ (d : PyDate) (h : d.valid = true) :
    d.succ.toOrdinal = d.toOrdinal + 1 := by
  simp only [PyDate.valid, Bool.and_eq_true, decide_eq_true_eq] at h
  obtain ⟨⟨⟨⟨hy, hm1⟩, hm2⟩, hd1⟩, hd2⟩ := h
  unfold PyDate.succ
  split
  · unfold PyDate.toOrdinal PyDate.dayOfYear
    simp only
    omega
  · split
    · next hdlt hmlt =>
      unfold PyDate.toOrdinal PyDate.dayOfYear
      simp only
      rw [daysBeforeMonth_step _ _ hm1]
      unfold daysInMonth at hd2 hdlt
      omega
    · next hdlt hmlt =>
      have hm12 : d.month = 12 := by omega
      have hd31 : d.day = daysInMonth d.year d.month := by omega
      unfold PyDate.toOrdinal PyDate.dayOfYear
      simp only
      rw [leapsBefore_step _ hy, hm12]
      unfold daysInMonth at hd31
      rw [hd31, hm12]
      have h1 := daysBeforeMonth_twelve (isLeapYear d.year)
      have h2 := daysBeforeMonth_year (isLeapYear d.year)
      have h3 : daysBeforeMonth (isLeapYear (d.year + 1)) 1 = 0 := rfl
      rw [h3]
      by_cases hl : isLeapYear d.year <;> simp [hl] at h1 h2 ⊢ <;> omega

theorem valid_succ (d : PyDate) (h : d.valid = true) : d.succ.valid = true := by
  simp only [PyDate.valid, Bool.and_eq_true, decide_eq_true_eq] at h ⊢
  obtain ⟨⟨⟨⟨hy, hm1⟩, hm2⟩, hd1⟩, hd2⟩ := h
  unfold PyDate.succ
  split
  · simp only
    refine ⟨⟨⟨⟨hy, hm1⟩, hm2⟩, by omega⟩, by omega⟩
  · split
    · next h1 h2 =>
      simp only
      have := monthLength_pos (isLeapYear d.year) (d.month + 1)
      unfold daysInMonth
      refine ⟨⟨⟨⟨hy, by omega⟩, by omega⟩, by omega⟩, this⟩
    · simp only
      have : daysInMonth (d.year + 1) 1 = 31 := by
        unfold daysInMonth monthLength
        rfl
      omega

theorem toOrdinal_pred (d : PyDate) (h : d.valid = true) (h2 : 2 ≤ d.toOrdinal) :
    d.pred.toOrdinal = d.toOrdinal - 1 := by
  simp only [PyDate.valid, Bool.and_eq_true, decide_eq_true_eq] at h
  obtain ⟨⟨⟨⟨hy, hm1⟩, hm2⟩, hd1⟩, hd2⟩ := h
  unfold PyDate.pred
  split
  · unfold PyDate.toOrdinal PyDate.dayOfYear
    simp only
    omega
  · split
    · next hdle hmgt =>
      have hd : d.day = 1 := by omega
      unfold PyDate.toOrdinal PyDate.dayOfYear
      simp only
      have : daysBeforeMonth (isLeapYear d.year) (d.month - 1 + 1)
          = daysBeforeMonth (isLeapYear d.year) (d.month - 1)
            + monthLength (isLeapYear d.year) (d.month - 1) := by
        exact daysBeforeMonth_step _ _ (by omega)
      have hmm : d.month - 1 + 1 = d.month := by omega
      rw [hmm] at this
      unfold daysInMonth
      omega
    · next hdle hmle =>
      have hd : d.day = 1 := by omega
      have hm : d.month = 1 := by omega
      -- d = ⟨year, 1, 1⟩ with toOrdinal = 365*(year-1) + leapsBefore year + 1 ≥ 2,
      -- so year ≥ 2 and the previous day is December 31 of year - 1.
      have hy2 : 2 ≤ d.year := by
        by_contra hcon
        have hy1 : d.year = 1 := by omega
        unfold PyDate.toOrdinal PyDate.dayOfYear at h2
        rw [hy1, hm, hd] at h2
        simp [leapsBefore, daysBeforeMonth] at h2
      unfold PyDate.toOrdinal PyDate.dayOfYear
      simp only
      rw [hm, hd]
      have hstep := leapsBefore_step (d.year - 1) (by omega)
      have hyy : d.year - 1 + 1 = d.year := by omega
      rw [hyy] at hstep
      have h1 := daysBeforeMonth_twelve (isLeapYear (d.year - 1))
      have h3 : daysBeforeMonth (isLeapYear d.year) 1 = 0 := rfl
      rw [h3]
      by_cases hl : isLeapYear (d.year - 1) <;> simp [hl] at h1 hstep ⊢ <;> omega

/-! ## Weekday guards and resolver characterization -/

theorem from_python_weekday_eq_friday (n : Nat) (h : n < 7) :
    (Weekday.from_python_weekday n = .friday) ↔ n = 4 := by
  interval_cases n <;> simp [Weekday.from_python_weekday]

theorem resolveFuel_false_nonfriday (fuel : Nat) (dt : PyDate) (cfg : ScheduleConfigModel)
    (h : weekdayOf dt ≠ .friday) :
    resolveFuel fuel dt cfg false = some (referenceFalse dt cfg) := by
  rw [resolveFuel.eq_def]
  cases hsw : List.lookup dt.isoformat cfg.swaps with
  | some swap => simp [hsw, referenceFalse]
  | none =>
    cases hh : List.lookup dt.isoformat cfg.holidays with
    | some g => simp [hsw, hh, referenceFalse]
    | none =>
      cases hw : weekdayOf dt with
      | friday => exact absurd hw h
      | _ =>
        simp [hsw, hh, hw, referenceFalse, baseGuardian, baseHandoff]

theorem resolveFuel_false_fuelsucc (f : Nat) (dt : PyDate) (cfg : ScheduleConfigModel)
    (h : weekdayOf dt = .friday → weekdayOf dt.pred ≠ .friday) :
    resolveFuel (f + 1) dt cfg false = some (referenceFalse dt cfg) := by
  by_cases hw : weekdayOf dt = .friday
  · have hpred := resolveFuel_false_nonfriday f dt.pred cfg (h hw)
    rw [resolveFuel.eq_def]
    cases hsw : List.lookup dt.isoformat cfg.swaps with
    | some swap => simp [hsw, referenceFalse]
    | none =>
      cases hh : List.lookup dt.isoformat cfg.holidays with
      | some g => simp [hsw, hh, referenceFalse]
      | none =>
        simp only [hsw, hh, hw, hpred]
        rw [referenceFalse_guardian]
        simp [referenceFalse, baseGuardian, baseHandoff, hsw, hh, hw]
  · exact resolveFuel_false_nonfriday _ _ _ hw

theorem pred_not_friday (d : PyDate) (hv : d.valid = true) (hw : weekdayOf d = .friday) :
    weekdayOf d.pred ≠ .friday := by
  unfold weekdayOf PyDate.pyWeekday at hw ⊢
  have h4 := (from_python_weekday_eq_friday _ (Nat.mod_lt _ (by omega))).mp hw
  have hord : 2 ≤ d.toOrdinal := by omega
  have hpred := toOrdinal_pred d hv hord
  intro hcon
  have h4p := (from_python_weekday_eq_friday _ (Nat.mod_lt _ (by omega))).mp hcon
  rw [hpred] at h4p
  omega

theorem succ_pred_not_friday (d : PyDate) (hv : d.valid = true)
    (hw : weekdayOf d.succ = .friday) : weekdayOf d.succ.pred ≠ .friday := by
  have hvs := valid_succ d hv
  have hso := toOrdinal_succ d hv
  have hord : 2 ≤ d.succ.toOrdinal := by
    have := toOrdinal_pos d hv
    omega
  have hpo := toOrdinal_pred d.succ hvs hord
  unfold weekdayOf PyDate.pyWeekday at hw ⊢
  have h4 := (from_python_weekday_eq_friday _ (Nat.mod_lt _ (by omega))).mp hw
  intro hcon
  have h4p := (from_python_weekday_eq_friday _ (Nat.mod_lt _ (by omega))).mp hcon
  rw [hpo] at h4p
  omega

set_option maxHeartbeats 1600000 in
theorem resolveFuel_true_char (dt : PyDate) (cfg : ScheduleConfigModel) (hv : dt.valid = true) :
    resolveFuel 2 dt cfg true = some (referenceTrue dt cfg) := by
  have hsucc : resolveFuel 1 dt.succ cfg false = some (referenceFalse dt.succ cfg) :=
    resolveFuel_false_fuelsucc 0 dt.succ cfg (succ_pred_not_friday dt hv)
  rw [resolveFuel.eq_def]
  cases hsw : List.lookup dt.isoformat cfg.swaps with
  | some swap => simp [hsw, referenceTrue]
  | none =>
    cases hh : List.lookup dt.isoformat cfg.holidays with
    | some g => simp [hsw, hh, referenceTrue]
    | none =>
      cases hwd : weekdayOf dt with
      | friday =>
        have hpred : resolveFuel 1 dt.pred cfg false = some (referenceFalse dt.pred cfg) :=
          resolveFuel_false_nonfriday 1 dt.pred cfg (pred_not_friday dt hv hwd)
        simp only [hsw, hh, hwd, hpred, hsucc]
        simp only [referenceFalse_guardian]
        cases hsp : List.lookup Weekday.friday cfg.handoff.special_handoffs with
        | none => simp [referenceTrue, hsw, hh, hwd, hsp, baseGuardian, baseHandoff]
        | some special =>
          simp [referenceTrue, hsw, hh, hwd, hsp, baseGuardian, baseHandoff,
            specialHandoffString]
          split_ifs <;> rfl
      | monday =>
        simp only [hsw, hh, hwd, hsucc]
        cases hsp : List.lookup Weekday.monday cfg.handoff.special_handoffs with
        | none => simp [referenceTrue, hsw, hh, hwd, hsp, baseGuardian, baseHandoff]
        | some special =>
          simp only [referenceFalse_guardian]
          simp [referenceTrue, hsw, hh, hwd, hsp, baseGuardian, baseHandoff,
            specialHandoffString]
          split_ifs <;> rfl
      | tuesday =>
        simp only [hsw, hh, hwd, hsucc]
        cases hsp : List.lookup Weekday.tuesday cfg.handoff.special_handoffs with
        | none => simp [referenceTrue, hsw, hh, hwd, hsp, baseGuardian, baseHandoff]
        | some special =>
          simp only [referenceFalse_guardian]
          simp [referenceTrue, hsw, hh, hwd, hsp, baseGuardian, baseHandoff,
            specialHandoffString]
          split_ifs <;> rfl
      | wednesday =>
        simp only [hsw, hh, hwd, hsucc]
        cases hsp : List.lookup Weekday.wednesday cfg.handoff.special_handoffs with
        | none => simp [referenceTrue, hsw, hh, hwd, hsp, baseGuardian, baseHandoff]
        | some special =>
          simp only [referenceFalse_guardian]
          simp [referenceTrue, hsw, hh, hwd, hsp, baseGuardian, baseHandoff,
            specialHandoffString]
          split_ifs <;> rfl
      | thursday =>
        simp only [hsw, hh, hwd, hsucc]
        cases hsp : List.lookup Weekday.thursday cfg.handoff.special_handoffs with
        | none => simp [referenceTrue, hsw, hh, hwd, hsp, baseGuardian, baseHandoff]
        | some special =>
          simp only [referenceFalse_guardian]
          simp [referenceTrue, hsw, hh, hwd, hsp, baseGuardian, baseHandoff,
            specialHandoffString]
          split_ifs <;> rfl
      | saturday =>
        simp only [hsw, hh, hwd, hsucc]
        cases hsp : List.lookup Weekday.saturday cfg.handoff.special_handoffs with
        | none => simp [referenceTrue, hsw, hh, hwd, hsp, baseGuardian, baseHandoff]
        | some special =>
          simp only [referenceFalse_guardian]
          simp [referenceTrue, hsw, hh, hwd, hsp, baseGuardian, baseHandoff,
            specialHandoffString]
          split_ifs <;> rfl
      | sunday =>
        simp only [hsw, hh, hwd, hsucc]
        cases hsp : List.lookup Weekday.sunday cfg.handoff.special_handoffs with
        | none => simp [referenceTrue, hsw, hh, hwd, hsp, baseGuardian, baseHandoff]
        | some special =>
          simp only [referenceFalse_guardian]
          simp [referenceTrue, hsw, hh, hwd, hsp, baseGuardian, baseHandoff,
            specialHandoffString]
          split_ifs <;> rfl

theorem resolveFuel_false_char (dt : PyDate) (cfg : ScheduleConfigModel) (hv : dt.valid = true) :
    resolveFuel 2 dt cfg false = some (referenceFalse dt cfg) :=
  resolveFuel_false_fuelsucc 1 dt cfg (pred_not_friday dt hv)

theorem resolve_for_date_true_char (dt : PyDate) (cfg : ScheduleConfigModel)
    (hv : dt.valid = true) : resolve_for_date dt cfg true = referenceTrue dt cfg := by
  unfold resolve_for_date
  rw [resolveFuel_true_char dt cfg hv]
  rfl

theorem resolve_for_date_false_char (dt : PyDate) (cfg : ScheduleConfigModel)
    (hv : dt.valid = true) : resolve_for_date dt cfg false = referenceFalse dt cfg := by
  unfold resolve_for_date
  rw [resolveFuel_false_char dt cfg hv]
  rfl

theorem referenceTrue_guardian (dt : PyDate) (cfg : ScheduleConfigModel) :
    (referenceTrue dt cfg).guardian = computedGuardian dt cfg := by
  unfold referenceTrue computedGuardian
  cases List.lookup dt.isoformat cfg.swaps with
  | some swap => rfl
  | none =>
    cases List.lookup dt.isoformat cfg.holidays with
    | some g => rfl
    | none =>
      cases List.lookup (weekdayOf dt) cfg.handoff.special_handoffs with
      | none => rfl
      | some special =>
        dsimp only
        split_ifs <;> rfl

theorem computedGuardian_of_no_override (dt : PyDate) (cfg : ScheduleConfigModel)
    (hsw : List.lookup dt.isoformat cfg.swaps = none)
    (hh : List.lookup dt.isoformat cfg.holidays = none) :
    computedGuardian dt cfg = baseGuardian dt cfg := by
  unfold computedGuardian
  rw [hsw, hh]

theorem resolve_weekday_rule_no_modulo (entry : GuardianOrRule) (cw : Nat)
    (h : entry.moduloRules = []) :
    resolve_weekday_rule entry cw = entry.directValue := by
  cases entry with
  | direct g => rfl
  | rule r =>
    have h2 : r.modulo_rules = [] := h
    simp [resolve_weekday_rule, GuardianOrRule.directValue, h2]

/-- C1: Totality of resolution.  For every valid calendar date and every
validated configuration, the recursion completes (fuel 2 suffices, so
resolution never fails) and the resolved guardian is exactly one of the two
configured guardians - never neither and never both. -/
theorem claim_C1_totality (dt : PyDate) (cfg : ScheduleConfigModel)
    (hdt : dt.valid = true) (_hcfg : validateScheduleConfig cfg = true) :
    resolveFuel 2 dt cfg true = some (resolve_for_date dt cfg true)
      ∧ ((resolve_for_date dt cfg true).guardian = .mom
          ∨ (resolve_for_date dt cfg true).guardian = .dad)
      ∧ ¬((resolve_for_date dt cfg true).guardian = .mom
          ∧ (resolve_for_date dt cfg true).guardian = .dad) := by
  refine ⟨?_, ?_, ?_⟩
  · unfold resolve_for_date
    rw [resolveFuel_true_char dt cfg hdt]
    rfl
  · cases h : (resolve_for_date dt cfg true).guardian with
    | mom => exact Or.inl rfl
    | dad => exact Or.inr rfl
  · rintro ⟨h1, h2⟩
    rw [h1] at h2
    exact Guardian.noConfusion h2

/-- C2: Swap precedence.  On any valid date whose ISO string is a key of
`config.swaps`, `resolve_for_date` returns the swap's guardian, handoff and
note verbatim with `is_swap = true`, bypassing every other rule; and
`is_swap` is true exactly on swap dates. -/
theorem claim_C2_swap_precedence (dt : PyDate) (cfg : ScheduleConfigModel)
    (hdt : dt.valid = true) :
    (∀ swap : SwapDate, List.lookup dt.isoformat cfg.swaps = some swap →
        resolve_for_date dt cfg true
          = ⟨dt.isoformat, iso_week dt, swap.guardian, swap.handoff, true, swap.note⟩)
      ∧ ((resolve_for_date dt cfg true).is_swap = true
          ↔ (List.lookup dt.isoformat cfg.swaps).isSome = true) := by
  rw [resolve_for_date_true_char dt cfg hdt]
  constructor
  · intro swap hs
    unfold referenceTrue
    simp only [hs]
  · unfold referenceTrue
    cases hs : List.lookup dt.isoformat cfg.swaps with
    | some swap => simp
    | none =>
      cases hh : List.lookup dt.isoformat cfg.holidays with
      | some g => simp
      | none =>
        cases hsp : List.lookup (weekdayOf dt) cfg.handoff.special_handoffs with
        | none => simp
        | some special =>
          dsimp only
          split_ifs <;> simp

/-- C10: The `checkHandoff` flag affects only the handoff annotation: for
every valid date and configuration, resolution with `check_handoff = true`
and with `check_handoff = false` agree on the `date`, `calendar_week`,
`guardian`, `is_swap` and `swap_note` fields. -/
theorem claim_C10_flag_only_handoff (dt : PyDate) (cfg : ScheduleConfigModel)
    (hdt : dt.valid = true) :
    (resolve_for_date dt cfg true).date = (resolve_for_date dt cfg false).date
      ∧ (resolve_for_date dt cfg true).calendar_week
          = (resolve_for_date dt cfg false).calendar_week
      ∧ (resolve_for_date dt cfg true).guardian = (resolve_for_date dt cfg false).guardian
      ∧ (resolve_for_date dt cfg true).is_swap = (resolve_for_date dt cfg false).is_swap
      ∧ (resolve_for_date dt cfg true).swap_note = (resolve_for_date dt cfg false).swap_note := by
  rw [resolve_for_date_true_char dt cfg hdt, resolve_for_date_false_char dt cfg hdt]
  unfold referenceTrue referenceFalse
  cases hs : List.lookup dt.isoformat cfg.swaps with
  | some swap => simp
  | none =>
    cases hh : List.lookup dt.isoformat cfg.holidays with
    | some g => simp
    | none =>
      cases hsp : List.lookup (weekdayOf dt) cfg.handoff.special_handoffs with
      | none => simp
      | some special =>
        dsimp only
        split_ifs <;> simp

/-- C8 amended: `resolve_for_date` terminates on every valid date, and
recursion depth 2 suffices for every call: one top-level call resolves at
most one backward and one forward neighbor, and a neighbor call recurses at
most once more (Friday's backward lookup, which is not guarded by
`checkHandoff`); no deeper recursion is ever needed. -/
theorem claim_C8_amended_fuel_two (dt : PyDate) (cfg : ScheduleConfigModel)
    (check_handoff : Bool) (hdt : dt.valid = true) :
    resolveFuel 2 dt cfg check_handoff = some (resolve_for_date dt cfg check_handoff) := by
  cases check_handoff
  · unfold resolve_for_date
    rw [resolveFuel_false_char dt cfg hdt]
    rfl
  · unfold resolve_for_date
    rw [resolveFuel_true_char dt cfg hdt]
    rfl

/-- C3 counterexample: on Monday 2025-02-03 (no swap, no holiday) the
resolved guardian equals Sunday 2025-02-02's guardian, yet the reported
handoff is `some "school"`, not `null` - the Monday-Thursday branch reports
the weekday handoff location unconditionally, refuting "handoff ... exactly
when the guardian resolved for D-1 differs from the guardian resolved for
D". -/
theorem claim_C3_counterexample :
    List.lookup (PyDate.isoformat ⟨2025, 2, 3⟩) roundTripConfig.swaps = none
      ∧ List.lookup (PyDate.isoformat ⟨2025, 2, 3⟩) roundTripConfig.holidays = none
      ∧ (resolve_for_date ⟨2025, 2, 2⟩ roundTripConfig true).guardian
          = (resolve_for_date ⟨2025, 2, 3⟩ roundTripConfig true).guardian
      ∧ (resolve_for_date ⟨2025, 2, 3⟩ roundTripConfig true).handoff = some "school" := by
  decide

/-- C3 amended: the base (non-special) handoff of a non-swap, non-holiday
date is: the configured weekday handoff location on Monday-Thursday,
unconditionally; `"after_school"` on Friday exactly when Thursday's guardian
differs from Friday's; and null on Saturday and Sunday even when a custody
transition occurs. -/
theorem claim_C3_amended_base_handoff (dt : PyDate) (cfg : ScheduleConfigModel)
    (hdt : dt.valid = true)
    (hsw : List.lookup dt.isoformat cfg.swaps = none)
    (hh : List.lookup dt.isoformat cfg.holidays = none) :
    (resolve_for_date dt cfg false).handoff =
      (match weekdayOf dt with
        | .monday | .tuesday | .wednesday | .thursday => some (_get_weekday_handoff cfg)
        | .friday =>
          if computedGuardian dt.pred cfg ≠ computedGuardian dt cfg then some "after_school"
          else none
        | .saturday | .sunday => none) := by
  rw [resolve_for_date_false_char dt cfg hdt]
  unfold referenceFalse
  simp only [hsw, hh]
  rw [computedGuardian_of_no_override dt cfg hsw hh]
  unfold baseHandoff
  cases hwd : weekdayOf dt
  case friday =>
    by_cases hab : computedGuardian dt.pred cfg = baseGuardian dt cfg <;> simp [hab]
  all_goals simp

/-- C4: Special handoff joint conditions.  On a non-swap, non-holiday valid
date with a SpecialHandoff configured for its weekday, the resolved output
carries the special handoff string (the description verbatim, else the
auto-generated from/to/time string) in place of the base handoff if and only
if the computed guardian equals `from_guardian`, `from_guardian` differs from
`to_guardian`, and the next day's resolved guardian equals `to_guardian`;
otherwise the result is exactly the base resolution. -/
theorem claim_C4_special_handoff_iff (dt : PyDate) (cfg : ScheduleConfigModel)
    (special : SpecialHandoff) (hdt : dt.valid = true)
    (hsw : List.lookup dt.isoformat cfg.swaps = none)
    (hh : List.lookup dt.isoformat cfg.holidays = none)
    (hsp : List.lookup (weekdayOf dt) cfg.handoff.special_handoffs = some special) :
    resolve_for_date dt cfg true =
      (if computedGuardian dt cfg = special.from_guardian
           ∧ special.from_guardian ≠ special.to_guardian
           ∧ computedGuardian dt.succ cfg = special.to_guardian
        then { resolve_for_date dt cfg false with
                handoff := some (specialHandoffString special) }
        else resolve_for_date dt cfg false) := by
  rw [resolve_for_date_true_char dt cfg hdt, resolve_for_date_false_char dt cfg hdt]
  unfold referenceTrue referenceFalse
  simp only [hsw, hh, hsp]
  rw [computedGuardian_of_no_override dt cfg hsw hh]
  by_cases h1 : baseGuardian dt cfg = special.from_guardian <;>
    by_cases h2 : special.from_guardian = special.to_guardian <;>
      by_cases h3 : computedGuardian dt.succ cfg = special.to_guardian <;>
        simp [h1, h2, h3, beq_iff_eq, bne_iff_ne, bne_self_eq_false, beq_self_eq_true]

/-- C5: Modulo first-match-wins.  Resolving a rule list returns the guardian
of the earliest declared rule whose modulo test matches the calendar week,
and the `otherwise` guardian when none matches; concretely, with rules
`(modulo=2, remainder=0, mom)` then `(modulo=4, remainder=0, dad)` in that
order, calendar week 8 resolves to `mom` (guardianA), not `dad`. -/
theorem claim_C5_modulo_first_match :
    (∀ (rs : List CalendarWeekModuloRule) (oth : Guardian) (cw : Nat),
        (∀ r ∈ rs, cw % r.modulo ≠ r.remainder) →
          resolve_weekday_rule (.rule ⟨rs, oth⟩) cw = oth)
      ∧ (∀ (pre post : List CalendarWeekModuloRule) (r : CalendarWeekModuloRule)
            (oth : Guardian) (cw : Nat),
          (∀ r2 ∈ pre, cw % r2.modulo ≠ r2.remainder) → cw % r.modulo = r.remainder →
            resolve_weekday_rule (.rule ⟨pre ++ r :: post, oth⟩) cw = r.guardian)
      ∧ resolve_weekday_rule (.rule ⟨[⟨2, 0, .mom⟩, ⟨4, 0, .dad⟩], .dad⟩) 8 = .mom := by
  refine ⟨?_, ?_, by decide⟩
  · intro rs oth cw hnone
    simp only [resolve_weekday_rule]
    have hfind : List.find? (fun mr => cw % mr.modulo == mr.remainder) rs = none := by
      rw [List.find?_eq_none]
      intro x hx
      simp only [beq_iff_eq]
      exact hnone x hx
    rw [hfind]
  · intro pre post r oth cw hpre hr
    simp only [resolve_weekday_rule]
    have hfind : List.find? (fun mr => cw % mr.modulo == mr.remainder) (pre ++ r :: post)
        = some r := by
      induction pre with
      | nil =>
        rw [List.nil_append, List.find?_cons_of_pos]
        simp only [beq_iff_eq]
        exact hr
      | cons a as ih =>
        rw [List.cons_append, List.find?_cons_of_neg]
        · exact ih (fun r2 h2 => hpre r2 (List.mem_cons_of_mem a h2))
        · simp only [beq_iff_eq]
          exact hpre a (List.mem_cons_self a as)
    rw [hfind]

/-- C6 counterexample: 2025-01-13 is a Monday of odd ISO week 3; in a
configuration without modulo rules whose weekend parity blocks assign every
entry to `dad`, the resolved guardian is `mom` (the parity-independent
`weekdays` block) - so the guardian is not taken from the odd-week block for
every weekday of the week: the schema has parity blocks only for
Friday/Saturday/Sunday. -/
theorem claim_C6_counterexample :
    iso_week ⟨2025, 1, 13⟩ = 3
      ∧ weekdayOf ⟨2025, 1, 13⟩ = .monday
      ∧ noModuloRules parityProbeConfig = true
      ∧ List.lookup (PyDate.isoformat ⟨2025, 1, 13⟩) parityProbeConfig.swaps = none
      ∧ List.lookup (PyDate.isoformat ⟨2025, 1, 13⟩) parityProbeConfig.holidays = none
      ∧ parityProbeConfig.rules.weekends.odd_weeks = ⟨.dad, .dad, .dad⟩
      ∧ parityProbeConfig.rules.weekends.even_weeks = ⟨.direct .dad, .direct .dad, .direct .dad⟩
      ∧ (resolve_for_date ⟨2025, 1, 13⟩ parityProbeConfig true).guardian = .mom := by
  decide

/-- C6 amended: for a modulo-rule-free configuration and a non-swap,
non-holiday valid date, the weekend days take their guardian from the
odd-week block exactly when the ISO week is odd and from the even-week block
when it is even, while Monday-Thursday use the single parity-independent
weekday block; and ISO weeks are computed correctly across year boundaries
(December 29, 2025 is ISO week 1). -/
theorem claim_C6_amended_parity (dt : PyDate) (cfg : ScheduleConfigModel)
    (hdt : dt.valid = true) (hnm : noModuloRules cfg = true)
    (hsw : List.lookup dt.isoformat cfg.swaps = none)
    (hh : List.lookup dt.isoformat cfg.holidays = none) :
    ((weekdayOf dt = .friday →
        (resolve_for_date dt cfg true).guardian =
          if iso_week dt % 2 = 1 then cfg.rules.weekends.odd_weeks.friday
          else cfg.rules.weekends.even_weeks.friday.directValue)
      ∧ (weekdayOf dt = .saturday →
          (resolve_for_date dt cfg true).guardian =
            if iso_week dt % 2 = 1 then cfg.rules.weekends.odd_weeks.saturday
            else cfg.rules.weekends.even_weeks.saturday.directValue)
      ∧ (weekdayOf dt = .sunday →
          (resolve_for_date dt cfg true).guardian =
            if iso_week dt % 2 = 1 then cfg.rules.weekends.odd_weeks.sunday
            else cfg.rules.weekends.even_weeks.sunday.directValue)
      ∧ (weekdayOf dt = .monday →
          (resolve_for_date dt cfg true).guardian = cfg.rules.weekdays.monday)
      ∧ (weekdayOf dt = .tuesday →
          (resolve_for_date dt cfg true).guardian = cfg.rules.weekdays.tuesday)
      ∧ (weekdayOf dt = .wednesday →
          (resolve_for_date dt cfg true).guardian = cfg.rules.weekdays.wednesday)
      ∧ (weekdayOf dt = .thursday →
          (resolve_for_date dt cfg true).guardian = cfg.rules.weekdays.thursday))
      ∧ iso_week ⟨2025, 12, 29⟩ = 1 := by
  have hg : (resolve_for_date dt cfg true).guardian = baseGuardian dt cfg := by
    rw [resolve_for_date_true_char dt cfg hdt, referenceTrue_guardian,
      computedGuardian_of_no_override dt cfg hsw hh]
  have hnm3 : cfg.rules.weekends.even_weeks.friday.moduloRules = []
      ∧ cfg.rules.weekends.even_weeks.saturday.moduloRules = []
      ∧ cfg.rules.weekends.even_weeks.sunday.moduloRules = [] := by
    unfold noModuloRules configModuloRules at hnm
    rcases List.isEmpty_iff.mp hnm |> List.append_eq_nil.mp with ⟨hab, hc⟩
    rcases List.append_eq_nil.mp hab with ⟨ha, hb⟩
    exact ⟨ha, hb, hc⟩
  refine ⟨⟨?_, ?_, ?_, ?_, ?_, ?_, ?_⟩, by decide⟩ <;> intro hwd <;>
    rw [hg] <;> unfold baseGuardian <;> simp only [hwd] <;>
    simp [resolve_weekday_rule_no_modulo _ _ hnm3.1,
      resolve_weekday_rule_no_modulo _ _ hnm3.2.1,
      resolve_weekday_rule_no_modulo _ _ hnm3.2.2, beq_iff_eq]

/-- C9: Validation rejection.  A configuration passes construction-time
validation exactly when every modulo rule satisfies `modulo ≥ 2` and
`remainder < modulo` and every holiday and swap key parses as a valid
calendar date string; and for validated configurations resolution of any
valid date has no error path. -/
theorem claim_C9_validation (cfg : ScheduleConfigModel) :
    (validateScheduleConfig cfg = true ↔
        ((∀ r ∈ configModuloRules cfg, 2 ≤ r.modulo ∧ r.remainder < r.modulo)
          ∧ (∀ kv ∈ cfg.holidays, ∃ d : PyDate, parseIsoDate kv.1 = some d)
          ∧ (∀ kv ∈ cfg.swaps, ∃ d : PyDate, parseIsoDate kv.1 = some d)))
      ∧ (validateScheduleConfig cfg = true →
          ∀ dt : PyDate, dt.valid = true → (resolveFuel 2 dt cfg true).isSome = true) := by
  constructor
  · unfold validateScheduleConfig CalendarWeekModuloRule.ok
    simp only [Bool.and_eq_true, List.all_eq_true, decide_eq_true_eq,
      Option.isSome_iff_exists, and_assoc]
  · intro _ dt hdt
    rw [resolveFuel_true_char dt cfg hdt]
    rfl

theorem claim_C1_totality_witness :
    (⟨2025, 2, 23⟩ : PyDate).valid = true
      ∧ validateScheduleConfig roundTripConfig = true
      ∧ ((resolve_for_date ⟨2025, 2, 23⟩ roundTripConfig true).guardian = .mom
          ∨ (resolve_for_date ⟨2025, 2, 23⟩ roundTripConfig true).guardian = .dad) :=
  ⟨by decide, by decide,
    (claim_C1_totality ⟨2025, 2, 23⟩ roundTripConfig (by decide) (by decide)).2.1⟩

theorem claim_C2_swap_precedence_witness :
    resolve_for_date ⟨2025, 2, 10⟩ swapProbeConfig true
      = ⟨PyDate.isoformat ⟨2025, 2, 10⟩, iso_week ⟨2025, 2, 10⟩, Guardian.dad,
          some "at school by 6pm", true, some "Doctor appointment"⟩ :=
  (claim_C2_swap_precedence ⟨2025, 2, 10⟩ swapProbeConfig (by decide)).1
    ⟨.dad, some "at school by 6pm", some "Doctor appointment", none⟩ (by decide)

theorem claim_C3_amended_witness :
    (resolve_for_date ⟨2025, 2, 3⟩ roundTripConfig false).handoff = some "school" :=
  (claim_C3_amended_base_handoff ⟨2025, 2, 3⟩ roundTripConfig
    (by decide) (by decide) (by decide)).trans (by decide)

theorem claim_C4_special_handoff_witness :
    resolve_for_date ⟨2025, 2, 23⟩ roundTripConfig true
      = { resolve_for_date ⟨2025, 2, 23⟩ roundTripConfig false with
          handoff := some "guardian_2_to_guardian_1_by_1pm" } :=
  (claim_C4_special_handoff_iff ⟨2025, 2, 23⟩ roundTripConfig
      ⟨.dad, .mom, ⟨13, 0, false, true⟩, some "guardian_2_to_guardian_1_by_1pm"⟩
      (by decide) (by decide) (by decide) (by decide)).trans (by decide)

theorem claim_C5_modulo_first_match_witness :
    resolve_weekday_rule (.rule ⟨[⟨2, 0, .mom⟩, ⟨4, 0, .dad⟩], .dad⟩) 12 = .mom :=
  claim_C5_modulo_first_match.2.1 [] [⟨4, 0, .dad⟩] ⟨2, 0, .mom⟩ .dad 12
    (by simp) (by decide)

theorem claim_C6_amended_witness :
    (resolve_for_date ⟨2025, 2, 7⟩ parityProbeConfig true).guardian = Guardian.dad :=
  (((claim_C6_amended_parity ⟨2025, 2, 7⟩ parityProbeConfig
      (by decide) (by decide) (by decide) (by decide)).1.1 (by decide)).trans (by decide))

theorem claim_C8_amended_witness :
    resolveFuel 2 ⟨2025, 2, 20⟩ thursdaySpecialConfig true
      = some (resolve_for_date ⟨2025, 2, 20⟩ thursdaySpecialConfig true) :=
  claim_C8_amended_fuel_two ⟨2025, 2, 20⟩ thursdaySpecialConfig true (by decide)

theorem claim_C9_validation_witness :
    (resolveFuel 2 ⟨2025, 2, 10⟩ swapProbeConfig true).isSome = true :=
  (claim_C9_validation swapProbeConfig).2 (by decide) ⟨2025, 2, 10⟩ (by decide)

theorem claim_C10_flag_witness :
    (resolve_for_date ⟨2025, 2, 23⟩ roundTripConfig true).guardian
      = (resolve_for_date ⟨2025, 2, 23⟩ roundTripConfig false).guardian :=
  (claim_C10_flag_only_handoff ⟨2025, 2, 23⟩ roundTripConfig (by decide)).2.2.1

/-- C7: Round-trip example.  Under the configuration where guardian_1 (the
`mom` slot) holds Monday-Thursday and all odd-week weekends and guardian_2
(the `dad` slot) holds even-week Friday-Saturday, with even-week Sunday going
to guardian_2 when the calendar week is divisible by 4 (handing back by 1pm)
and otherwise guardian_1, resolving 2025-02-23 (Sunday, ISO week 8) yields
guardian_2 with handoff "guardian_2_to_guardian_1_by_1pm" and is_swap false,
and resolving 2025-02-09 (Sunday, ISO week 6) yields guardian_1 with a null
handoff. -/
theorem claim_C7_round_trip :
    resolve_for_date ⟨2025, 2, 23⟩ roundTripConfig true
        = ⟨"2025-02-23", 8, .dad, some "guardian_2_to_guardian_1_by_1pm", false, none⟩
      ∧ resolve_for_date ⟨2025, 2, 9⟩ roundTripConfig true
        = ⟨"2025-02-09", 6, .mom, none, false, none⟩
      ∧ roundTripConfig.parties.mom = "guardian_1"
      ∧ roundTripConfig.parties.dad = "guardian_2" := by
  decide

/-- C8 counterexample: the `checkHandoff` guard does not cap recursion at one
level.  2025-02-21 is a Friday: resolving it with `check_handoff = false`
already requires one further neighbor resolution (fuel 0 fails, fuel 1
succeeds), because the Friday backward lookup is not guarded by the flag.
Consequently a top-level call on Thursday 2025-02-20 with a Thursday
SpecialHandoff configured needs recursion depth 2 (fuel 1 fails, fuel 2
succeeds), refuting the claim that no `checkHandoff = false` call performs a
further neighbor resolution. -/
theorem claim_C8_counterexample :
    resolveFuel 0 ⟨2025, 2, 21⟩ thursdaySpecialConfig false = none
      ∧ resolveFuel 1 ⟨2025, 2, 21⟩ thursdaySpecialConfig false
        = some (resolve_for_date ⟨2025, 2, 21⟩ thursdaySpecialConfig false)
      ∧ resolveFuel 1 ⟨2025, 2, 20⟩ thursdaySpecialConfig true = none
      ∧ resolveFuel 2 ⟨2025, 2, 20⟩ thursdaySpecialConfig true
        = some (resolve_for_date ⟨2025, 2, 20⟩ thursdaySpecialConfig true) := by
  decide
